import Mathlib

/-!
Verification of the streaming slide segmenter and the session
snapshot/restore pipeline of `src/index.tsx`.

The segmenter is the fragment loop of `generate` (lines 231-263): it keeps
an accumulator `text : string` / `img : image | null`, appends truthy text
parts to `text`, overwrites `img` from `inlineData` parts, emits a slide
whenever both are set, and after the stream ends emits a trailing slide when
`img` is still set.  The persistence layer is `saveSlideshowToStorage`
(lines 629-659) and `loadSlideshowFromStorage` (lines 693-762) over a
single-slot IndexedDB store.
-/

namespace Post

/-- JavaScript `a || b` on strings: `""` is falsy. -/
def jsOr (a b : String) : String := if a = "" then b else a

/-- One streamed `part` as the loop sees it: an optional `text` field and an
optional `inlineData` payload (modelled by its base64 data string). -/
structure Part where
  text : Option String
  inlineData : Option String
deriving Repr, DecidableEq

/-- `if (part.text)`: the text field is present and truthy (non-empty). -/
def Part.textTruthy (p : Part) : Bool :=
  match p.text with
  | some v => v ≠ ""
  | none => false

/-- A text-only part, `{text: v}`. -/
def mkTextPart (v : String) : Part := ⟨some v, none⟩

/-- An image-only part, `{inlineData: {data: d}}`. -/
def mkImagePart (d : String) : Part := ⟨none, some d⟩

/-- A slide as `addSlide(text, img)` receives it: a caption string and an
image payload; `none` models a slide without an `<img>` element. -/
structure Slide where
  caption : String
  image : Option String
deriving Repr, DecidableEq

/-- The segmenter accumulator: `let text = ''; let img = null;`. -/
structure Acc where
  text : String
  img : Option String
deriving Repr, DecidableEq

/-- The initial accumulator state (line 231-232). -/
def Acc.init : Acc := ⟨"", none⟩

/-- The update phase of the loop body (lines 236-251): append truthy text,
otherwise take `inlineData` as the new pending image, otherwise log
`'no data'`.  The Bool records whether the defensive log branch fired. -/
def updatePart (st : Acc) (p : Part) : Acc × Bool :=
  match p.text with
  | some v =>
    if v = "" then
      match p.inlineData with
      | some d => (⟨st.text, some d⟩, false)
      | none => (st, true)
    else (⟨st.text ++ v, st.img⟩, false)
  | none =>
    match p.inlineData with
    | some d => (⟨st.text, some d⟩, false)
    | none => (st, true)

/-- The `if (text && img)` emit check (lines 252-256): when both fields are
set, emit one slide carrying both and reset the accumulator. -/
def emitCheck (st1 : Acc) : Acc × List Slide :=
  match st1.img with
  | some d =>
    if st1.text = "" then (st1, [])
    else (Acc.init, [⟨st1.text, some d⟩])
  | none => (st1, [])

/-- The body of the `for (const part of ...)` loop (lines 236-257) for one
part: update the accumulator, then run the emit check.  Returns the new
state, the emitted slides (zero or one), and the log flag. -/
def consumePart (st : Acc) (p : Part) : Acc × List Slide × Bool :=
  ((emitCheck (updatePart st p).1).1,
   (emitCheck (updatePart st p).1).2,
   (updatePart st p).2)

/-- Run the loop over a whole fragment list, collecting emitted slides in
order. -/
def consumeList (st : Acc) (ps : List Part) : Acc × List Slide :=
  match ps with
  | [] => (st, [])
  | p :: rest =>
    let r := consumePart st p
    let r2 := consumeList r.1 rest
    (r2.1, r.2.1 ++ r2.2)

/-- The end-of-stream flush, `if (img) { await addSlide(text, img); }`
(lines 260-263). -/
def flushRemainder (st : Acc) : List Slide :=
  match st.img with
  | some d => [⟨st.text, some d⟩]
  | none => []

/-- All Answer slides produced for a fragment list: the slides emitted
during consumption followed by the trailing flush. -/
def segmentAll (ps : List Part) : List Slide :=
  (consumeList Acc.init ps).2 ++ flushRemainder (consumeList Acc.init ps).1

/-- The accumulator never holds a completed pair between fragments: the
emit check at line 252 fires as soon as both fields are set. -/
def Acc.ok (st : Acc) : Prop := st.text = "" ∨ st.img = none

theorem acc_init_ok : Acc.ok Acc.init := Or.inl rfl

theorem emitCheck_fst_ok (st1 : Acc) : Acc.ok (emitCheck st1).1 := by
  rcases h : st1.img with _ | d
  · simp [emitCheck, Acc.ok, h]
  · by_cases ht : st1.text = "" <;> simp [emitCheck, Acc.ok, Acc.init, h, ht]

/-- When the accumulator does not already hold a completed pair, the emit
check is a no-op. -/
theorem emitCheck_ok_noop (st1 : Acc) (hok : Acc.ok st1) : emitCheck st1 = (st1, []) := by
  rcases h : st1.img with _ | d
  · simp [emitCheck, h]
  · rcases hok with ht | hi
    · simp [emitCheck, h, ht]
    · rw [h] at hi
      exact absurd hi (by simp)

theorem consumePart_fst_ok (st : Acc) (p : Part) : Acc.ok (consumePart st p).1 :=
  emitCheck_fst_ok (updatePart st p).1

theorem consumeList_fst_ok (ps : List Part) (st : Acc) (h : Acc.ok st) :
    Acc.ok (consumeList st ps).1 := by
  induction ps generalizing st with
  | nil => simpa [consumeList] using h
  | cons p rest ih =>
    simp only [consumeList]
    exact ih _ (consumePart_fst_ok st p)

theorem append_ne_empty (a v : String) (hv : v ≠ "") : a ++ v ≠ "" := by
  intro h
  apply hv
  have hd : (a ++ v).data = [] := congrArg String.data h
  rw [String.data_append] at hd
  exact String.ext (List.append_eq_nil.mp hd).2

theorem consumePart_textPart (st : Acc) (v : String) (hv : v ≠ "") :
    consumePart st (mkTextPart v) =
      match st.img with
      | some i => (Acc.init, [⟨st.text ++ v, some i⟩], false)
      | none => (⟨st.text ++ v, none⟩, [], false) := by
  rcases h : st.img with _ | i
  · simp [consumePart, updatePart, emitCheck, mkTextPart, hv, h]
  · simp [consumePart, updatePart, emitCheck, mkTextPart, hv, h,
      append_ne_empty st.text v hv]

theorem consumePart_imagePart (st : Acc) (d : String) :
    consumePart st (mkImagePart d) =
      if st.text = "" then (⟨st.text, some d⟩, [], false)
      else (Acc.init, [⟨st.text, some d⟩], false) := by
  by_cases ht : st.text = "" <;> simp [consumePart, updatePart, emitCheck, mkImagePart, ht]

theorem consumeList_append (st : Acc) (xs ys : List Part) :
    consumeList st (xs ++ ys)
      = ((consumeList (consumeList st xs).1 ys).1,
         (consumeList st xs).2 ++ (consumeList (consumeList st xs).1 ys).2) := by
  induction xs generalizing st with
  | nil => simp [consumeList]
  | cons p rest ih => simp [consumeList, ih]

/-- C1: the per-fragment transition obeys the pair-completion rule: a truthy
Text part appends its value to the pending caption, an Image part overwrites
the pending image, and whenever both the caption is non-empty and the image
is set after the update, exactly one slide carrying both is emitted and both
accumulator fields are reset to their initial empty values. -/
theorem c1_pair_completion_rule (st : Acc) (v d : String) (hv : v ≠ "") :
    (consumePart st (mkTextPart v) =
      match st.img with
      | some i => (Acc.init, [⟨st.text ++ v, some i⟩], false)
      | none => (⟨st.text ++ v, none⟩, [], false))
    ∧ (consumePart st (mkImagePart d) =
      if st.text = "" then (⟨st.text, some d⟩, [], false)
      else (Acc.init, [⟨st.text, some d⟩], false)) :=
  ⟨consumePart_textPart st v hv, consumePart_imagePart st d⟩

/-- Witness for C1 at a concrete accumulator and fragments. -/
theorem c1_pair_completion_rule_witness :
    consumePart ⟨"hi", none⟩ (mkTextPart "a") = (⟨"hia", none⟩, [], false)
    ∧ consumePart ⟨"hi", some "D"⟩ (mkImagePart "E")
        = (Acc.init, [⟨"hi", some "E"⟩], false) := by
  constructor
  · rw [(c1_pair_completion_rule ⟨"hi", none⟩ "a" "E" (by decide)).1]
    decide
  · rw [(c1_pair_completion_rule ⟨"hi", some "D"⟩ "a" "E" (by decide)).2]
    decide

/-- C3: the end-of-stream flush keeps a trailing image (one slide with the
pending caption, which is empty at that point) and discards a trailing
caption-only remainder; concretely, a lone image part yields one slide with
empty caption and a lone text part yields no slides. -/
theorem c3_flush_asymmetry (ps : List Part) (d : String) :
    ((consumeList Acc.init ps).1.img = some d →
      segmentAll ps
        = (consumeList Acc.init ps).2 ++ [⟨(consumeList Acc.init ps).1.text, some d⟩])
    ∧ ((consumeList Acc.init ps).1.img = none →
      segmentAll ps = (consumeList Acc.init ps).2)
    ∧ segmentAll [mkImagePart d] = [⟨"", some d⟩]
    ∧ segmentAll [mkTextPart "a"] = [] := by
  refine ⟨?_, ?_, ?_, ?_⟩
  · intro h
    simp [segmentAll, flushRemainder, h]
  · intro h
    simp [segmentAll, flushRemainder, h]
  · simp [segmentAll, consumeList, flushRemainder, consumePart_imagePart, Acc.init]
  · simp [segmentAll, consumeList, flushRemainder, consumePart_textPart, Acc.init]

/-- Witness for C3 at a concrete one-image stream. -/
theorem c3_flush_asymmetry_witness :
    (consumeList Acc.init [mkImagePart "D"]).1.img = some "D"
    ∧ segmentAll [mkImagePart "D"]
        = (consumeList Acc.init [mkImagePart "D"]).2
          ++ [⟨(consumeList Acc.init [mkImagePart "D"]).1.text, some "D"⟩] :=
  ⟨by decide, (c3_flush_asymmetry [mkImagePart "D"] "D").1 (by decide)⟩

/-- C4: pairing is order-preserving: the four-fragment stream Text "a",
Image d1, Text "b", Image d2 yields exactly the two slides ("a", d1) then
("b", d2); and consumption over a concatenated stream emits the first
stream's slides before the second stream's, so the k-th emitted slide is the
k-th completed pair in encounter order. -/
theorem c4_order_preserving (d1 d2 : String) (st : Acc) (xs ys : List Part) :
    segmentAll [mkTextPart "a", mkImagePart d1, mkTextPart "b", mkImagePart d2]
      = [⟨"a", some d1⟩, ⟨"b", some d2⟩]
    ∧ consumeList st (xs ++ ys)
      = ((consumeList (consumeList st xs).1 ys).1,
         (consumeList st xs).2 ++ (consumeList (consumeList st xs).1 ys).2) := by
  constructor
  · simp [segmentAll, consumeList, flushRemainder, consumePart_textPart,
      consumePart_imagePart, Acc.init]
  · exact consumeList_append st xs ys

/-- C2: the output slide count is the number of pairs completed during
consumption plus the trailing flush; the flush contributes at most one
slide, any trailing slide is image-only (empty caption, image present), and
when no image is pending at end of stream the flush contributes nothing, so
a caption-only remainder is never emitted. -/
theorem c2_slide_count (ps : List Part) :
    (segmentAll ps).length
      = (consumeList Acc.init ps).2.length
        + (flushRemainder (consumeList Acc.init ps).1).length
    ∧ (flushRemainder (consumeList Acc.init ps).1).length ≤ 1
    ∧ ((flushRemainder (consumeList Acc.init ps).1).all
        (fun sl => sl.caption == "" && sl.image.isSome)) = true
    ∧ ((consumeList Acc.init ps).1.img = none →
        flushRemainder (consumeList Acc.init ps).1 = []) := by
  have hok : Acc.ok (consumeList Acc.init ps).1 := consumeList_fst_ok ps _ acc_init_ok
  refine ⟨?_, ?_, ?_, ?_⟩
  · simp [segmentAll]
  · rcases h : (consumeList Acc.init ps).1.img with _ | d <;> simp [flushRemainder, h]
  · rcases h : (consumeList Acc.init ps).1.img with _ | d
    · simp [flushRemainder, h]
    · rcases hok with ht | hi
      · simp [flushRemainder, h, ht]
      · rw [h] at hi
        exact absurd hi (by simp)
  · intro h
    simp [flushRemainder, h]

/-- Witness for C2 at a concrete caption-only stream. -/
theorem c2_slide_count_witness :
    (consumeList Acc.init [mkTextPart "a"]).1.img = none
    ∧ flushRemainder (consumeList Acc.init [mkTextPart "a"]).1 = [] :=
  ⟨by decide, (c2_slide_count [mkTextPart "a"]).2.2.2 (by decide)⟩

theorem consumePart_malformed (st : Acc) (p : Part) (hok : Acc.ok st)
    (ht : Part.textTruthy p = false) (hd : p.inlineData = none) :
    consumePart st p = (st, [], true) := by
  have hupd : updatePart st p = (st, true) := by
    rcases hp : p.text with _ | v
    · simp [updatePart, hp, hd]
    · have hv : v = "" := by
        by_contra hne
        simp [Part.textTruthy, hp, hne] at ht
      simp [updatePart, hp, hv, hd]
  simp [consumePart, hupd, emitCheck_ok_noop st hok]

theorem consumeList_malformed_cons (st : Acc) (p : Part) (ys : List Part)
    (hok : Acc.ok st) (ht : Part.textTruthy p = false) (hd : p.inlineData = none) :
    consumeList st (p :: ys) = consumeList st ys := by
  simp [consumeList, consumePart_malformed st p hok ht hd]

/-- C9: a fragment with neither truthy text nor an inlineData payload is
skipped with the diagnostic log and leaves the accumulator unchanged, and
inserting such a fragment anywhere in a stream does not change the emitted
slides: processing continues as if it were absent. -/
theorem c9_malformed_fragment_skipped (st : Acc) (p : Part) (xs ys : List Part)
    (hok : Acc.ok st) (ht : Part.textTruthy p = false) (hd : p.inlineData = none) :
    consumePart st p = (st, [], true)
    ∧ consumeList st (p :: ys) = consumeList st ys
    ∧ segmentAll (xs ++ p :: ys) = segmentAll (xs ++ ys) := by
  refine ⟨consumePart_malformed st p hok ht hd,
    consumeList_malformed_cons st p ys hok ht hd, ?_⟩
  have hX : Acc.ok (consumeList Acc.init xs).1 := consumeList_fst_ok xs _ acc_init_ok
  have h2 := consumeList_malformed_cons (consumeList Acc.init xs).1 p ys hX ht hd
  simp [segmentAll, consumeList_append, h2]

/-- Witness for C9 at a concrete malformed fragment. -/
theorem c9_malformed_fragment_skipped_witness :
    Acc.ok ⟨"a", none⟩
    ∧ consumePart ⟨"a", none⟩ ⟨none, none⟩ = (⟨"a", none⟩, [], true)
    ∧ segmentAll [mkImagePart "D", ⟨none, none⟩, mkTextPart "b"]
        = segmentAll [mkImagePart "D", mkTextPart "b"] := by
  have h := c9_malformed_fragment_skipped ⟨"a", none⟩ ⟨none, none⟩
    [mkImagePart "D"] [mkTextPart "b"] (Or.inr rfl) rfl rfl
  exact ⟨Or.inr rfl, h.1, h.2.2⟩

theorem emitCheck_all_image (st1 : Acc) :
    ((emitCheck st1).2).all (fun sl => sl.image.isSome) = true := by
  rcases h : st1.img with _ | d
  · simp [emitCheck, h]
  · by_cases ht : st1.text = "" <;> simp [emitCheck, h, ht]

theorem consumeList_all_image (ps : List Part) (st : Acc) :
    ((consumeList st ps).2).all (fun sl => sl.image.isSome) = true := by
  induction ps generalizing st with
  | nil => simp [consumeList]
  | cons p rest ih =>
    simp only [consumeList, List.all_append, Bool.and_eq_true]
    exact ⟨emitCheck_all_image (updatePart st p).1, ih _⟩

/-- C10: every Answer slide the segmenter emits, the trailing flush slide
included, carries a non-null image; only the caption can be empty. -/
theorem c10_every_emitted_slide_has_image (ps : List Part) :
    ((segmentAll ps).all (fun sl => sl.image.isSome)) = true := by
  simp only [segmentAll, List.all_append, Bool.and_eq_true]
  refine ⟨consumeList_all_image ps Acc.init, ?_⟩
  rcases h : (consumeList Acc.init ps).1.img with _ | d <;> simp [flushRemainder, h]

/-! ## Session persistence: `saveSlideshowToStorage` / `loadSlideshowFromStorage`

A live slide in the `#slideshow` container is its `question-slide` class,
its caption `innerHTML`, and the byte content its `<img>` src denotes (a
data URL during generation, an object URL after a restore); `dataUrlToBlob`
resolves a src to exactly those bytes and `URL.createObjectURL` builds a
fresh src denoting the stored bytes, so both are modelled as the payload
string itself. -/

/-- A rendered slide in the DOM slideshow container. -/
structure LiveSlide where
  isQuestion : Bool
  text : String
  image : Option String
deriving Repr, DecidableEq

/-- The `SavedSlide` record shape (lines 45-49). -/
structure SavedSlide where
  isQuestion : Bool
  text : String
  imageBlob : Option String
deriving Repr, DecidableEq

/-- The in-memory session: the question, the three selection globals
captured at save time, and the rendered slides. -/
structure Session where
  question : String
  theme : String
  ratio : String
  colorStyle : String
  slides : List LiveSlide
deriving Repr, DecidableEq

/-- The `SavedSlideshow` record shape (lines 51-57). -/
structure SavedSlideshow where
  question : String
  theme : String
  ratio : String
  colorStyle : String
  slides : List SavedSlide
deriving Repr, DecidableEq

/-- `slide.querySelector('img')?.src || null` (line 641): an empty src is
coerced to null. -/
def srcOrNull (o : Option String) : Option String :=
  match o with
  | some s => if s = "" then none else some s
  | none => none

/-- Encoding of one slide (lines 638-643): caption `innerHTML || ''`, image
src resolved to its blob bytes when present. -/
def saveSlide (sl : LiveSlide) : SavedSlide :=
  { isQuestion := sl.isQuestion
    text := jsOr sl.text ""
    imageBlob := srcOrNull sl.image }

/-- `saveSlideshowToStorage` (lines 629-655): nothing is written when only
the question slide exists; otherwise the record captures the question, the
three selection globals and the encoded slides. -/
def saveSlideshowToStorage (s : Session) : Option SavedSlideshow :=
  if s.slides.length ≤ 1 then none
  else
    some
      { question := s.question
        theme := s.theme
        ratio := s.ratio
        colorStyle := s.colorStyle
        slides := s.slides.map saveSlide }

/-- Decoding of one stored slide (lines 722-751): the stored HTML is
assigned verbatim as the caption and a stored blob becomes a fresh image
resource with the same bytes. -/
def loadSlide (sd : SavedSlide) : LiveSlide :=
  { isQuestion := sd.isQuestion, text := sd.text, image := sd.imageBlob }

/-- The successful-decode path of `loadSlideshowFromStorage` (lines
701-752): settings are restored verbatim except `colorStyle || 'bw'`
(line 706), and the slide list is rebuilt from the record. -/
def decodeSaved (r : SavedSlideshow) : Session :=
  { question := r.question
    theme := r.theme
    ratio := r.ratio
    colorStyle := jsOr r.colorStyle "bw"
    slides := r.slides.map loadSlide }

/-- C5: decoding the encoded snapshot of a session with at least one Answer
slide reproduces the question, the three presentation settings, and the
slide sequence with equal caption text and equal image bytes.  The session's
`colorStyle` is one of the selector values, hence non-empty, and a live
image src is never the empty string. -/
theorem c5_round_trip (s : Session)
    (hn : 1 < s.slides.length)
    (hc : s.colorStyle ≠ "")
    (him : ∀ sl ∈ s.slides, sl.image ≠ some "") :
    (saveSlideshowToStorage s).map decodeSaved = some s := by
  rcases s with ⟨q, th, ra, co, slides⟩
  simp only [saveSlideshowToStorage] at *
  rw [if_neg (by simpa using Nat.not_le_of_lt hn)]
  simp only [Option.map_some', Option.some.injEq, decodeSaved, List.map_map,
    Session.mk.injEq, true_and]
  refine ⟨by simpa [jsOr] using fun h => absurd h hc, ?_⟩
  have hpt : ∀ sl ∈ slides, (loadSlide ∘ saveSlide) sl = id sl := by
    intro sl hsl
    rcases sl with ⟨isq, t, im⟩
    have him2 := him _ hsl
    rcases im with _ | v
    · simp [loadSlide, saveSlide, srcOrNull, jsOr]
      by_cases ht : t = "" <;> simp [ht]
    · have hv : v ≠ "" := by
        intro hv
        exact him2 (by simp [hv])
      simp [loadSlide, saveSlide, srcOrNull, jsOr, hv]
      by_cases ht : t = "" <;> simp [ht]
  rw [List.map_congr_left hpt, List.map_id]

/-- Witness for C5 at a concrete two-slide session. -/
theorem c5_round_trip_witness :
    (saveSlideshowToStorage
        ⟨"q", "cats", "1-1", "bw",
          [⟨true, "You asked", none⟩, ⟨false, "cap", some "IMG"⟩]⟩).map decodeSaved
      = some
          ⟨"q", "cats", "1-1", "bw",
            [⟨true, "You asked", none⟩, ⟨false, "cap", some "IMG"⟩]⟩ :=
  c5_round_trip _ (by decide) (by decide) (by decide)

/-! ## The `generate` function as an effect trace (lines 189-276)

`generate` first awaits `clearDataFromDB`, then creates the Question slide,
then consumes the stream (a thrown stream error jumps to the catch block,
skipping flush and save), and finally saves only when the slideshow holds
more than the Question slide.  `failAfter = some k` models a stream that
throws after `k` parts were consumed; `render` models the external
`marked.parse` collaborator used by `addSlide`. -/

/-- Observable effects of one `generate` call. -/
inductive Ev where
  | clearStore
  | addQuestionSlide
  | consume (p : Part)
  | emit (sl : Slide)
  | put (rcd : SavedSlideshow)
  | showError
deriving Repr, DecidableEq

/-- The Question slide created at lines 210-217. -/
def questionLive (message : String) : LiveSlide :=
  ⟨true, "You asked:<br><strong>" ++ message ++ "</strong>", none⟩

/-- `addSlide(text, img)` (lines 155-164): the caption is the markdown
rendering of the accumulated text, the image is attached as given. -/
def slideToLive (render : String → String) (sl : Slide) : LiveSlide :=
  ⟨false, render sl.caption, sl.image⟩

/-- The slideshow children after a completed stream: the Question slide
followed by every segmenter slide as `addSlide` rendered it. -/
def generateSessionSlides (render : String → String) (message : String)
    (frags : List Part) : List LiveSlide :=
  questionLive message :: (segmentAll frags).map (slideToLive render)

/-- The consume/emit events of the fragment loop. -/
def consumeEvents (st : Acc) (ps : List Part) : List Ev :=
  match ps with
  | [] => []
  | p :: rest =>
    Ev.consume p
      :: ((consumePart st p).2.1.map Ev.emit
          ++ consumeEvents (consumePart st p).1 rest)

/-- Lines 264-267: the save runs only when the slideshow holds more than
the Question slide, and `saveSlideshowToStorage` re-checks the same guard. -/
def putEvents (s : Session) : List Ev :=
  if 1 < s.slides.length then
    match saveSlideshowToStorage s with
    | some rcd => [Ev.put rcd]
    | none => []
  else []

/-- The effect trace of one `generate(message)` call. -/
def generateTrace (render : String → String)
    (message theme ratio colorStyle : String)
    (frags : List Part) (failAfter : Option Nat) : List Ev :=
  Ev.clearStore :: Ev.addQuestionSlide ::
    (match failAfter with
     | some k => consumeEvents Acc.init (frags.take k) ++ [Ev.showError]
     | none =>
       consumeEvents Acc.init frags
         ++ (flushRemainder (consumeList Acc.init frags).1).map Ev.emit
         ++ putEvents
              ⟨message, theme, ratio, colorStyle,
               generateSessionSlides render message frags⟩)

theorem put_notin_consumeEvents (ps : List Part) (st : Acc) (rcd : SavedSlideshow) :
    Ev.put rcd ∉ consumeEvents st ps := by
  induction ps generalizing st with
  | nil => simp [consumeEvents]
  | cons p rest ih =>
    simp only [consumeEvents, List.mem_cons, List.mem_append, List.mem_map]
    push_neg
    exact ⟨by simp, fun sl _ => by simp, ih _⟩

/-- C6: a store put happens iff the stream completed without a thrown error
and the finished slideshow holds more than just the Question slide. -/
theorem c6_put_iff_persistable (render : String → String)
    (message theme ratio colorStyle : String)
    (frags : List Part) (failAfter : Option Nat) :
    (∃ rcd, Ev.put rcd
        ∈ generateTrace render message theme ratio colorStyle frags failAfter)
      ↔ failAfter = none
        ∧ 1 < (generateSessionSlides render message frags).length := by
  rcases failAfter with _ | k
  · simp only [generateTrace, List.mem_cons, List.mem_append]
    constructor
    · rintro ⟨rcd, h⟩
      rcases h with h | h | (h | h) | h
      · exact absurd h (by simp)
      · exact absurd h (by simp)
      · exact absurd h (put_notin_consumeEvents frags Acc.init rcd)
      · rcases List.mem_map.mp h with ⟨sl, _, hsl⟩
        exact absurd hsl (by simp)
      · refine ⟨by simp, ?_⟩
        by_contra hlen
        simp [putEvents, hlen] at h
    · rintro ⟨-, hlen⟩
      refine ⟨⟨message, theme, ratio, colorStyle,
        (generateSessionSlides render message frags).map saveSlide⟩, ?_⟩
      right; right; right
      simp [putEvents, hlen, saveSlideshowToStorage, Nat.not_le_of_lt hlen]
  · simp only [generateTrace, List.mem_cons, List.mem_append, List.mem_singleton]
    constructor
    · rintro ⟨rcd, h⟩
      rcases h with h | h | h | h
      · exact absurd h (by simp)
      · exact absurd h (by simp)
      · exact absurd h (put_notin_consumeEvents (frags.take k) Acc.init rcd)
      · exact absurd h (by simp)
    · rintro ⟨h, -⟩
      simp at h

/-- The single-slot store driven by the trace: `clear` deletes the record,
`put` replaces it, every other effect leaves it alone. -/
def applyEv (store : Option SavedSlideshow) (e : Ev) : Option SavedSlideshow :=
  match e with
  | Ev.clearStore => none
  | Ev.put rcd => some rcd
  | _ => store

def runStore (evs : List Ev) (init : Option SavedSlideshow) : Option SavedSlideshow :=
  evs.foldl applyEv init

theorem runStore_none_of_no_put (evs : List Ev)
    (h : ∀ rcd : SavedSlideshow, Ev.put rcd ∉ evs) :
    runStore evs none = none := by
  induction evs with
  | nil => rfl
  | cons e rest ih =>
    have he : ∀ rcd : SavedSlideshow, e ≠ Ev.put rcd := by
      intro rcd hrcd
      exact h rcd (hrcd ▸ List.mem_cons_self e rest)
    have hrest : ∀ rcd : SavedSlideshow, Ev.put rcd ∉ rest := by
      intro rcd hrcd
      exact h rcd (List.mem_cons_of_mem e hrcd)
    have happ : applyEv none e = none := by
      cases e <;> first | rfl | exact absurd rfl (he _)
    simpa [runStore, happ] using ih hrest

/-- C7: every `generate` run clears the store as its very first effect,
before the Question slide is created and before any fragment is consumed;
consequently a run interrupted by a stream error leaves the store empty, no
matter what snapshot it held before. -/
theorem c7_clear_first (render : String → String)
    (message theme ratio colorStyle : String)
    (frags : List Part) (k : Nat) (init : Option SavedSlideshow) :
    (∀ failAfter, ∃ rest,
      generateTrace render message theme ratio colorStyle frags failAfter
        = Ev.clearStore :: Ev.addQuestionSlide :: rest)
    ∧ runStore
        (generateTrace render message theme ratio colorStyle frags (some k)) init
      = none := by
  constructor
  · intro failAfter
    exact ⟨_, rfl⟩
  · have hnoput : ∀ rcd : SavedSlideshow,
        Ev.put rcd ∉ (Ev.addQuestionSlide
          :: (consumeEvents Acc.init (frags.take k) ++ [Ev.showError])) := by
      intro rcd h
      rcases List.mem_cons.mp h with h | h
      · exact absurd h (by simp)
      · rcases List.mem_append.mp h with h | h
        · exact absurd h (put_notin_consumeEvents (frags.take k) Acc.init rcd)
        · exact absurd (List.mem_singleton.mp h) (by simp)
    simpa [generateTrace, runStore, applyEv] using
      runStore_none_of_no_put _ hnoput

/-! ## Restore orchestration (lines 693-762)

`loadSlideshowFromStorage` reads the single slot.  A missing record returns
early (line 696-699) after applying the default theme — no `clear` happens.
A record whose processing throws is handled by the catch block (lines
757-761), which logs once and calls `clearDataFromDB` once; the function is
called once at startup (line 868) and never retried. -/

/-- What the single store slot can hold: a record that decodes, or one
whose processing throws. -/
inductive StoredValue where
  | valid (r : SavedSlideshow)
  | corrupt
deriving Repr, DecidableEq

/-- The observable outcome of one restore attempt: the restored session (or
`none` for the default empty state), how many times `clearDataFromDB` was
called, and whether an exception escaped the function. -/
structure RestoreOutcome where
  ui : Option Session
  clearCalls : Nat
  threw : Bool
deriving Repr, DecidableEq

/-- `loadSlideshowFromStorage` over the store contents. -/
def loadSlideshowFromStorage (store : Option StoredValue) : RestoreOutcome :=
  match store with
  | none => ⟨none, 0, false⟩
  | some (StoredValue.valid r) => ⟨some (decodeSaved r), 0, false⟩
  | some StoredValue.corrupt => ⟨none, 1, false⟩

/-- C8 counterexample: restoring from a missing record is a restore failure
that performs no `clear` call at all, so the claim that every restore
failure clears the store exactly once is false on the code. -/
theorem c8_missing_record_counterexample :
    (loadSlideshowFromStorage none).clearCalls = 0
    ∧ ¬ (loadSlideshowFromStorage none).clearCalls = 1 := by
  decide

/-- C8 amended: a corrupt record clears the store exactly once, leaves the
UI in its default empty state and throws nothing; a missing record leaves
the default state with no clear call (the slot is already empty) and throws
nothing; a record that decodes is restored without any clear.  The function
runs once per startup, so no failure is retried. -/
theorem c8_restore_failure_handling (r : SavedSlideshow) :
    (loadSlideshowFromStorage (some StoredValue.corrupt)).clearCalls = 1
    ∧ (loadSlideshowFromStorage (some StoredValue.corrupt)).ui = none
    ∧ (loadSlideshowFromStorage (some StoredValue.corrupt)).threw = false
    ∧ (loadSlideshowFromStorage none).clearCalls = 0
    ∧ (loadSlideshowFromStorage none).ui = none
    ∧ (loadSlideshowFromStorage none).threw = false
    ∧ (loadSlideshowFromStorage (some (StoredValue.valid r))).clearCalls = 0
    ∧ (loadSlideshowFromStorage (some (StoredValue.valid r))).threw = false
    ∧ (loadSlideshowFromStorage (some (StoredValue.valid r))).ui
        = some (decodeSaved r) := by
  simp [loadSlideshowFromStorage]

end Post
